import Mathlib

/-!
Verification of the two pipeline scripts of this repository:
`fetch_core_transcripts.py` (Transcript Fetcher) and
`youtube_aigc_sampler.py` (Candidate Sampler).

The Python code is shallowly embedded: pandas data frames become lists of
typed rows, the external transcript API becomes an explicit behaviour record
(each call site is a field that either yields a value or raises a modelled
exception), and Python exceptions become `Except` / `Option` values.
-/

namespace ThesisScripts

/-! ## Transcript resolver (`fetch_core_transcripts.get_transcript`)

The `youtube_transcript_api` library can raise exceptions.  The `except`
clause in `get_transcript` distinguishes the three imported exception classes
(`TranscriptsDisabled`, `NoTranscriptFound`, `VideoUnavailable`) from every
other exception, so the embedding needs exactly those four cases. -/

inductive PyExn where
  | transcriptsDisabled
  | noTranscriptFound
  | videoUnavailable
  | otherError
deriving DecidableEq, Repr

/-- The three classes caught by `except (TranscriptsDisabled, NoTranscriptFound,
VideoUnavailable)` at the primary tier of `get_transcript`. -/
def is_expected_absence : PyExn → Bool
  | .transcriptsDisabled => true
  | .noTranscriptFound => true
  | .videoUnavailable => true
  | .otherError => false

/-- One run's behaviour of the transcript API for a fixed video id: the
outcome of each of the five library calls made by `get_transcript`
(`YouTubeTranscriptApi()`, `api.fetch`, `api.list`,
`find_generated_transcript`, `gen.fetch`).  Fetched transcripts are modelled
as the list of their entries' `text` fields, in order. -/
structure ApiBehavior where
  constructorExn : Option PyExn
  fetchResult : Except PyExn (List String)
  listExn : Option PyExn
  findGeneratedExn : Option PyExn
  genFetchResult : Except PyExn (List String)
deriving Repr

/-- Python `str.strip()` on a list of characters: drop whitespace from both
ends (whitespace modelled as the ASCII class of `Char.isWhitespace`). -/
def strip_chars (l : List Char) : List Char :=
  ((l.dropWhile Char.isWhitespace).reverse.dropWhile Char.isWhitespace).reverse

/-- `" ".join(texts).strip()` as applied to both tiers' fragments. -/
def join_texts (texts : List String) : String :=
  ⟨strip_chars (String.intercalate " " texts).data⟩

/-- The fallback tier's inner `try` body: `api.list(video_id)`, then
`transcripts.find_generated_transcript(LANGS)`, then `gen.fetch()`; the first
exception aborts the chain. -/
def fallback_result (b : ApiBehavior) : Except PyExn (List String) :=
  match b.listExn with
  | some e => .error e
  | none =>
    match b.findGeneratedExn with
    | some e => .error e
    | none => b.genFetchResult

/-- `get_transcript`, instrumented: the returned `Except` is the Python
result (`.error` means an exception propagates to the caller), and the
`Bool` records whether the fallback tier (the inner `try` block) ran. -/
def get_transcript_run (b : ApiBehavior) : Except PyExn String × Bool :=
  match b.constructorExn with
  | some e => (.error e, false)
  | none =>
    match b.fetchResult with
    | .ok entries => (.ok (join_texts entries), false)
    | .error e =>
      if is_expected_absence e then
        match fallback_result b with
        | .ok entries => (.ok (join_texts entries), true)
        | .error _ => (.ok "", true)
      else
        (.ok "", false)

/-- `get_transcript(video_id)` for a given behaviour of the API. -/
def get_transcript (b : ApiBehavior) : Except PyExn String :=
  (get_transcript_run b).1

/-- Whether the fallback tier was attempted during `get_transcript`. -/
def fallback_attempted (b : ApiBehavior) : Bool :=
  (get_transcript_run b).2

/-- A behaviour whose client constructor raises an unexpected exception. -/
def ctorFailB : ApiBehavior :=
  { constructorExn := some .otherError
    fetchResult := .error .otherError
    listExn := none
    findGeneratedExn := none
    genFetchResult := .ok [] }

/-- Primary tier succeeds with fragments `["Hello", "world"]`. -/
def primaryHelloB : ApiBehavior :=
  { constructorExn := none
    fetchResult := .ok ["Hello", "world"]
    listExn := none
    findGeneratedExn := none
    genFetchResult := .error .otherError }

/-- Primary tier raises the "disabled" condition; fallback tier returns
fragments `["Auto", "text"]`. -/
def disabledAutoB : ApiBehavior :=
  { constructorExn := none
    fetchResult := .error .transcriptsDisabled
    listExn := none
    findGeneratedExn := none
    genFetchResult := .ok ["Auto", "text"] }

/-- Both tiers fail. -/
def bothFailB : ApiBehavior :=
  { constructorExn := none
    fetchResult := .error .noTranscriptFound
    listExn := some .otherError
    findGeneratedExn := none
    genFetchResult := .ok [] }

/-- C1, counterexample: the client constructor `YouTubeTranscriptApi()` is
evaluated *outside* the `try` block of `get_transcript`, so a constructor
exception propagates to the caller: the claim's universal no-exception
guarantee fails at the concrete behaviour `ctorFailB`. -/
theorem C1_ctor_escapes :
    get_transcript ctorFailB = Except.error PyExn.otherError ∧
    ∀ s : String, get_transcript ctorFailB ≠ Except.ok s :=
  ⟨rfl, fun _ h => nomatch h⟩

/-- C1 (amended): provided the client constructor does not raise, for every
behaviour of both fetch tiers `get_transcript` returns a string and never
propagates an exception; whenever both tiers fail, it returns `""`. -/
theorem C1_get_transcript_total (b : ApiBehavior) (h : b.constructorExn = none) :
    (∃ s, get_transcript b = Except.ok s) ∧
    (∀ e e', b.fetchResult = Except.error e → fallback_result b = Except.error e' →
      get_transcript b = Except.ok "") := by
  constructor
  · rcases hf : b.fetchResult with e | ts
    · cases he : is_expected_absence e
      · exact ⟨"", by simp [get_transcript, get_transcript_run, h, hf, he]⟩
      · rcases hfb : fallback_result b with e' | ts
        · exact ⟨"", by simp [get_transcript, get_transcript_run, h, hf, he, hfb]⟩
        · exact ⟨join_texts ts, by simp [get_transcript, get_transcript_run, h, hf, he, hfb]⟩
    · exact ⟨join_texts ts, by simp [get_transcript, get_transcript_run, h, hf]⟩
  · intro e e' hf hfb
    cases he : is_expected_absence e
    · simp [get_transcript, get_transcript_run, h, hf, he]
    · simp [get_transcript, get_transcript_run, h, hf, he, hfb]

/-- Witness for C1 (amended) at `bothFailB`: both tiers fail, result `""`. -/
theorem C1_get_transcript_total_witness :
    get_transcript bothFailB = Except.ok "" :=
  (C1_get_transcript_total bothFailB rfl).2 PyExn.noTranscriptFound PyExn.otherError rfl rfl

/-- C2: given a successful constructor, the fallback tier runs exactly when
the primary fetch raises one of the three expected-absence exceptions, and
any other primary-tier exception yields `""` without the fallback tier. -/
theorem C2_fallback_iff_expected_absence (b : ApiBehavior) (h : b.constructorExn = none) :
    (fallback_attempted b = true ↔
      ∃ e, b.fetchResult = Except.error e ∧ is_expected_absence e = true) ∧
    (∀ e, is_expected_absence e = true ↔
      (e = PyExn.transcriptsDisabled ∨ e = PyExn.noTranscriptFound ∨
        e = PyExn.videoUnavailable)) ∧
    (∀ e, b.fetchResult = Except.error e → is_expected_absence e = false →
      get_transcript b = Except.ok "" ∧ fallback_attempted b = false) := by
  refine ⟨?_, ?_, ?_⟩
  · constructor
    · intro ha
      rcases hf : b.fetchResult with e | ts
      · refine ⟨e, rfl, ?_⟩
        cases he : is_expected_absence e
        · simp [fallback_attempted, get_transcript_run, h, hf, he] at ha
        · rfl
      · simp [fallback_attempted, get_transcript_run, h, hf] at ha
    · rintro ⟨e, hf, he⟩
      rcases hfb : fallback_result b with ts | e' <;>
        simp [fallback_attempted, get_transcript_run, h, hf, he, hfb]
  · intro e
    cases e <;> simp [is_expected_absence]
  · intro e hf he
    constructor
    · simp [get_transcript, get_transcript_run, h, hf, he]
    · simp [fallback_attempted, get_transcript_run, h, hf, he]

/-- Witness for C2 at `disabledAutoB`: primary raises "disabled", so the
fallback tier is attempted. -/
theorem C2_fallback_iff_expected_absence_witness :
    fallback_attempted disabledAutoB = true :=
  (C2_fallback_iff_expected_absence disabledAutoB rfl).1.mpr
    ⟨PyExn.transcriptsDisabled, rfl, rfl⟩

/-- C3: whichever tier succeeds, its fragments are joined in order with a
single space and trimmed; concretely, primary fragments `["Hello", "world"]`
give `"Hello world"`, a disabled primary with fallback `["Auto", "text"]`
gives `"Auto text"`, and two failing tiers give `""`. -/
theorem C3_join_of_successful_tier :
    (∀ b ts, b.constructorExn = none → b.fetchResult = Except.ok ts →
      get_transcript b = Except.ok (join_texts ts)) ∧
    (∀ b ts e, b.constructorExn = none → b.fetchResult = Except.error e →
      is_expected_absence e = true → fallback_result b = Except.ok ts →
      get_transcript b = Except.ok (join_texts ts)) ∧
    get_transcript primaryHelloB = Except.ok "Hello world" ∧
    get_transcript disabledAutoB = Except.ok "Auto text" ∧
    get_transcript bothFailB = Except.ok "" := by
  refine ⟨?_, ?_, rfl, rfl, rfl⟩
  · intro b ts h hf
    simp [get_transcript, get_transcript_run, h, hf]
  · intro b ts e h hf he hfb
    simp [get_transcript, get_transcript_run, h, hf, he, hfb]

/-- Witness for C3 at `primaryHelloB`. -/
theorem C3_join_of_successful_tier_witness :
    get_transcript primaryHelloB = Except.ok (join_texts ["Hello", "world"]) :=
  C3_join_of_successful_tier.1 primaryHelloB ["Hello", "world"] rfl rfl

/-! ## Transcript Fetcher main (`fetch_core_transcripts.main`)

The loaded CSV becomes a list of rows.  Each row keeps its `video_id` and
`Core_video` cells (both strings, as the frame is loaded with `dtype=str`)
plus the remaining cells (`meta`), which `main` never touches.  Per-video
transcript resolution is an oracle `f : String → String` standing for
`get_transcript`. -/

structure CoreRow where
  video_id : String
  core_video : String
  meta : List String
deriving DecidableEq, Repr

/-- `df[df["Core_video"].astype(str) == "1"]`. -/
def core_rows (df : List CoreRow) : List CoreRow :=
  df.filter (fun r => r.core_video == "1")

/-- `core_df[["video_id", "transcript"]]` after the fetch loop filled
`core_df["transcript"]`: one `(video_id, transcript)` pair per flagged row,
in order. -/
def transcript_pairs (df : List CoreRow) (f : String → String) :
    List (String × String) :=
  (core_rows df).map (fun r => (r.video_id, f r.video_id))

/-- `df.merge(core_df[["video_id", "transcript"]], on="video_id",
how="left")`: each left row is paired with every right pair sharing its
`video_id`, in right order; an unmatched left row gets a null (`none`)
transcript. -/
def merge_block (r : CoreRow) (tr : List (String × String)) :
    List (CoreRow × Option String) :=
  match tr.filter (fun p => p.1 == r.video_id) with
  | [] => [(r, none)]
  | ms => ms.map (fun p => (r, some p.2))

def merge_transcripts (df : List CoreRow) (tr : List (String × String)) :
    List (CoreRow × Option String) :=
  df.flatMap (fun r => merge_block r tr)

/-- The Transcript Fetcher's `main` after loading and column checks:
`none` models the early `return` (no output file) when no row has
`Core_video = "1"`; otherwise the merged table that gets written. -/
def fetcher_main (df : List CoreRow) (f : String → String) :
    Option (List (CoreRow × Option String)) :=
  if (core_rows df).isEmpty then none
  else some (merge_transcripts df (transcript_pairs df f))

/-- Number of rows of `df` whose identifier is `v`. -/
def count_id (v : String) (df : List CoreRow) : Nat :=
  (df.filter (fun r => r.video_id == v)).length

/-- Number of flagged rows of `df` whose identifier is `v`. -/
def flagged_count (v : String) (df : List CoreRow) : Nat :=
  count_id v (core_rows df)

/-- Number of right-side pairs keyed by `v`. -/
def tr_count (v : String) (tr : List (String × String)) : Nat :=
  (tr.filter (fun p => p.1 == v)).length

/-- Number of merged output rows whose identifier is `v`. -/
def out_count (v : String) (out : List (CoreRow × Option String)) : Nat :=
  (out.filter (fun p => p.1.video_id == v)).length

theorem pairs_filter_eq (l : List CoreRow) (f : String → String) (v : String) :
    (l.map (fun r => (r.video_id, f r.video_id))).filter (fun p => p.1 == v) =
      (l.filter (fun r => r.video_id == v)).map (fun r => (r.video_id, f r.video_id)) := by
  induction l with
  | nil => rfl
  | cons r l ih =>
    by_cases hv : r.video_id == v <;> simp [hv, ih]

theorem tr_count_transcript_pairs (df : List CoreRow) (f : String → String) (v : String) :
    tr_count v (transcript_pairs df f) = flagged_count v df := by
  simp [tr_count, transcript_pairs, flagged_count, count_id, pairs_filter_eq]

theorem count_id_eq_zero_of_not_mem {v : String} {l : List CoreRow}
    (h : v ∉ l.map (fun r => r.video_id)) : count_id v l = 0 := by
  induction l with
  | nil => rfl
  | cons r l ih =>
    simp only [List.map_cons, List.mem_cons] at h
    push_neg at h
    have hne : (r.video_id == v) = false := by
      simp [beq_iff_eq]
      exact fun hr => h.1 hr.symm
    have hl := ih h.2
    unfold count_id at hl ⊢
    rw [List.filter_cons]
    simpa [hne] using hl

theorem count_id_le_one_of_nodup {l : List CoreRow}
    (h : (l.map (fun r => r.video_id)).Nodup) (v : String) : count_id v l ≤ 1 := by
  induction l with
  | nil => exact Nat.zero_le 1
  | cons r l ih =>
    simp only [List.map_cons, List.nodup_cons] at h
    by_cases hv : (r.video_id == v) = true
    · have hm : v ∉ l.map (fun r => r.video_id) := by
        rw [beq_iff_eq] at hv
        subst hv
        exact h.1
      have h0 : count_id v l = 0 := count_id_eq_zero_of_not_mem hm
      unfold count_id at h0 ⊢
      rw [List.filter_cons]
      simp [hv, h0]
    · have hv' : (r.video_id == v) = false := by simpa using hv
      have hl := ih h.2
      unfold count_id at hl ⊢
      rw [List.filter_cons]
      simpa [hv'] using hl

theorem merge_transcripts_cons (r : CoreRow) (rs : List CoreRow)
    (tr : List (String × String)) :
    merge_transcripts (r :: rs) tr = merge_block r tr ++ merge_transcripts rs tr := by
  simp [merge_transcripts]

theorem merge_block_fst (r : CoreRow) (tr : List (String × String)) :
    ∀ x ∈ merge_block r tr, x.1 = r := by
  intro x hx
  unfold merge_block at hx
  cases hfil : tr.filter (fun p => p.1 == r.video_id) with
  | nil =>
    rw [hfil] at hx
    simp only [List.mem_singleton] at hx
    rw [hx]
  | cons p ps =>
    rw [hfil] at hx
    simp only [List.mem_map] at hx
    obtain ⟨q, _, hq⟩ := hx
    exact congrArg Prod.fst hq.symm

theorem merge_block_length (r : CoreRow) (tr : List (String × String)) :
    (merge_block r tr).length = max 1 (tr_count r.video_id tr) := by
  unfold merge_block tr_count
  cases hfil : tr.filter (fun p => p.1 == r.video_id) with
  | nil => simp [hfil]
  | cons p ps => simp [hfil, Nat.max_eq_right (Nat.succ_le_succ (Nat.zero_le _))]

theorem merge_block_map_fst_of_le_one (r : CoreRow) (tr : List (String × String))
    (h : tr_count r.video_id tr ≤ 1) : (merge_block r tr).map Prod.fst = [r] := by
  unfold merge_block
  unfold tr_count at h
  cases hfil : tr.filter (fun p => p.1 == r.video_id) with
  | nil => simp
  | cons p ps =>
    rw [hfil] at h
    simp only [List.length_cons] at h
    have hps : ps = [] := List.length_eq_zero.mp (Nat.le_zero.mp (Nat.le_of_succ_le_succ h))
    subst hps
    simp

theorem out_count_append (v : String) (a b : List (CoreRow × Option String)) :
    out_count v (a ++ b) = out_count v a + out_count v b := by
  simp [out_count, List.filter_append]

theorem out_count_block (r : CoreRow) (tr : List (String × String)) (v : String) :
    out_count v (merge_block r tr) =
      if r.video_id == v then max 1 (tr_count r.video_id tr) else 0 := by
  by_cases hv : (r.video_id == v) = true
  · rw [if_pos hv]
    have hall : (merge_block r tr).filter (fun p => p.1.video_id == v) = merge_block r tr :=
      List.filter_eq_self.mpr (fun x hx => by rw [merge_block_fst r tr x hx]; exact hv)
    rw [out_count, hall, merge_block_length]
  · rw [if_neg hv]
    have hnil : (merge_block r tr).filter (fun p => p.1.video_id == v) = [] :=
      List.filter_eq_nil_iff.mpr (fun x hx => by rw [merge_block_fst r tr x hx]; simpa using hv)
    rw [out_count, hnil]
    rfl

theorem out_count_merge (df : List CoreRow) (tr : List (String × String)) (v : String) :
    out_count v (merge_transcripts df tr) = count_id v df * max 1 (tr_count v tr) := by
  induction df with
  | nil => simp [merge_transcripts, out_count, count_id]
  | cons r rs ih =>
    rw [merge_transcripts_cons, out_count_append, ih, out_count_block]
    by_cases hv : (r.video_id == v) = true
    · have hveq : r.video_id = v := beq_iff_eq.mp hv
      rw [if_pos hv, hveq]
      have hc : count_id v (r :: rs) = count_id v rs + 1 := by
        unfold count_id
        rw [List.filter_cons, if_pos hv]
        rfl
      rw [hc, Nat.succ_mul, Nat.add_comm]
    · have hc : count_id v (r :: rs) = count_id v rs := by
        unfold count_id
        rw [List.filter_cons, if_neg hv]
      rw [if_neg hv, hc, Nat.zero_add]

/-- Rows of the merged table carry a null transcript exactly when their
identifier is not among the flagged identifiers; otherwise they carry the
resolver's result for their identifier. -/
theorem mem_merge_cases (df : List CoreRow) (f : String → String)
    (r : CoreRow) (t : Option String)
    (hm : (r, t) ∈ merge_transcripts df (transcript_pairs df f)) :
    (r.video_id ∉ (core_rows df).map (fun x => x.video_id) ∧ t = none) ∨
    (r.video_id ∈ (core_rows df).map (fun x => x.video_id) ∧
      t = some (f r.video_id)) := by
  rw [merge_transcripts, List.mem_flatMap] at hm
  obtain ⟨a, _, hb⟩ := hm
  unfold merge_block transcript_pairs at hb
  rw [pairs_filter_eq] at hb
  cases hfil : (core_rows df).filter (fun x => x.video_id == a.video_id) with
  | nil =>
    rw [hfil] at hb
    simp only [List.map_nil, List.mem_singleton, Prod.mk.injEq] at hb
    obtain ⟨hra, ht⟩ := hb
    subst hra
    left
    refine ⟨?_, ht⟩
    intro hmem
    obtain ⟨x, hx, hxid⟩ := List.mem_map.mp hmem
    have hxf : x ∈ (core_rows df).filter (fun y => y.video_id == r.video_id) :=
      List.mem_filter.mpr ⟨hx, by simp [hxid]⟩
    rw [hfil] at hxf
    exact absurd hxf (List.not_mem_nil x)
  | cons x xs =>
    rw [hfil] at hb
    simp only [List.map_cons, List.map_map, List.mem_cons, List.mem_map, Function.comp,
      Prod.mk.injEq] at hb
    have hxy : ∃ y, y ∈ x :: xs ∧ r = a ∧ t = some (f y.video_id) := by
      rcases hb with ⟨hra, ht⟩ | ⟨y, hy, hra, ht⟩
      · exact ⟨x, List.mem_cons_self x xs, hra, ht⟩
      · exact ⟨y, List.mem_cons_of_mem x hy, hra.symm, ht.symm⟩
    obtain ⟨y, hy, hra, ht⟩ := hxy
    subst hra
    have hy' : y ∈ (core_rows df).filter (fun z => z.video_id == r.video_id) := by
      rw [hfil]; exact hy
    obtain ⟨hyc, hyid⟩ := List.mem_filter.mp hy'
    have hyid' : y.video_id = r.video_id := by simpa using hyid
    right
    exact ⟨List.mem_map.mpr ⟨y, hyc, hyid'⟩, by rw [ht, hyid']⟩

theorem merge_map_fst (df : List CoreRow) (tr : List (String × String))
    (h : ∀ v, tr_count v tr ≤ 1) :
    (merge_transcripts df tr).map Prod.fst = df := by
  induction df with
  | nil => rfl
  | cons r rs ih =>
    rw [merge_transcripts_cons, List.map_append,
      merge_block_map_fst_of_le_one r tr (h r.video_id), ih]
    rfl

theorem flagged_count_le_count_id (v : String) (df : List CoreRow) :
    flagged_count v df ≤ count_id v df := by
  unfold flagged_count count_id core_rows
  rw [← List.countP_eq_length_filter, ← List.countP_eq_length_filter, List.countP_filter]
  exact List.countP_mono_left (fun a _ h => (Bool.and_eq_true _ _ |>.mp h).1)

/-- Two rows sharing the identifier `"a"`: the first flagged, the second not. -/
def c5df : List CoreRow := [⟨"a", "1", []⟩, ⟨"a", "0", []⟩]

/-- A flagged row (resolving to `""`) plus an unrelated unflagged row. -/
def c5wDf : List CoreRow := [⟨"a", "1", []⟩, ⟨"b", "0", []⟩]

/-- Two flagged rows sharing the identifier `"a"`. -/
def dupDf : List CoreRow := [⟨"a", "1", []⟩, ⟨"a", "1", ["x"]⟩]

/-- C5, counterexample: in `c5df` the unflagged row shares its identifier
with a flagged row, so the left join on `video_id` gives it the flagged
row's transcript `some "X"` instead of the null the claim promises. -/
theorem C5_unflagged_shares_id_not_null :
    (⟨"a", "0", []⟩ : CoreRow).core_video ≠ "1" ∧
    ((⟨"a", "0", []⟩ : CoreRow), some "X") ∈
      merge_transcripts c5df (transcript_pairs c5df (fun _ => "X")) ∧
    (some "X" : Option String) ≠ none := by
  refine ⟨by decide, by decide, by decide⟩

/-- C5 (amended): in the merged output, a row whose identifier is absent
from the flagged subset carries a null transcript, and a row whose
identifier is flagged with empty-string resolution carries exactly `""` —
so "not attempted" and "attempted and empty" stay distinguishable. -/
theorem C5_null_vs_empty (df : List CoreRow) (f : String → String)
    (r : CoreRow) (t : Option String)
    (hm : (r, t) ∈ merge_transcripts df (transcript_pairs df f)) :
    (r.video_id ∉ (core_rows df).map (fun x => x.video_id) → t = none) ∧
    (r.video_id ∈ (core_rows df).map (fun x => x.video_id) → f r.video_id = "" →
      t = some "") := by
  rcases mem_merge_cases df f r t hm with ⟨hn, ht⟩ | ⟨hi, ht⟩
  · exact ⟨fun _ => ht, fun hin _ => absurd hin hn⟩
  · exact ⟨fun hn => absurd hi hn, fun _ hf => by rw [ht, hf]⟩

/-- Witness for C5 (amended) on `c5wDf` with resolver constantly `""`: the
unflagged row `"b"` gets `none`, the flagged row `"a"` gets `some ""`. -/
theorem C5_null_vs_empty_witness :
    (((⟨"b", "0", []⟩ : CoreRow), (none : Option String)) ∈
        merge_transcripts c5wDf (transcript_pairs c5wDf (fun _ => "")) ∧
      (none : Option String) = none) ∧
    (((⟨"a", "1", []⟩ : CoreRow), (some "" : Option String)) ∈
        merge_transcripts c5wDf (transcript_pairs c5wDf (fun _ => "")) ∧
      (some "" : Option String) = some "") := by
  refine ⟨⟨by decide, ?_⟩, ⟨by decide, ?_⟩⟩
  · exact (C5_null_vs_empty c5wDf (fun _ => "") ⟨"b", "0", []⟩ none (by decide)).1 (by decide)
  · exact (C5_null_vs_empty c5wDf (fun _ => "") ⟨"a", "1", []⟩ (some "") (by decide)).2
      (by decide) rfl

/-- C9, counterexample: with two flagged rows sharing identifier `"a"`, the
left join duplicates rows (4 output rows from a 2-row input), so the output
is not the input table plus one appended column. -/
theorem C9_dup_ids_break_passthrough :
    (merge_transcripts dupDf (transcript_pairs dupDf (fun _ => "T"))).map Prod.fst ≠ dupDf ∧
    (merge_transcripts dupDf (transcript_pairs dupDf (fun _ => "T"))).length = 4 ∧
    dupDf.length = 2 := by
  refine ⟨by decide, by decide, rfl⟩

/-- C9 (amended): provided the flagged rows have pairwise-distinct
identifiers, the merged output is exactly the input table with one appended
transcript column: every other column (the whole `CoreRow`) passes through
unchanged, row for row. -/
theorem C9_passthrough_plus_column (df : List CoreRow) (f : String → String)
    (h : ((core_rows df).map (fun r => r.video_id)).Nodup) :
    ∃ ts : List (Option String),
      merge_transcripts df (transcript_pairs df f) = df.zip ts ∧
      ts.length = df.length := by
  have hcnt : ∀ v, tr_count v (transcript_pairs df f) ≤ 1 := fun v => by
    rw [tr_count_transcript_pairs]
    exact count_id_le_one_of_nodup h v
  set M := merge_transcripts df (transcript_pairs df f) with hM
  have hfst : M.map Prod.fst = df := merge_map_fst df _ hcnt
  refine ⟨M.map Prod.snd, ?_, ?_⟩
  · rw [← hfst, List.zip_map']
    simp
  · rw [List.length_map, ← hfst, List.length_map]

/-- Witness for C9 (amended) on `c5wDf` (distinct flagged identifiers). -/
theorem C9_passthrough_plus_column_witness :
    ∃ ts : List (Option String),
      merge_transcripts c5wDf (transcript_pairs c5wDf (fun _ => "")) = c5wDf.zip ts ∧
      ts.length = c5wDf.length :=
  C9_passthrough_plus_column c5wDf (fun _ => "") (by decide)

/-- C10: with pairwise-distinct flagged identifiers the merged output has
exactly one row per input row in input order; if an identifier is flagged
at least twice, every input row carrying it is duplicated — the output
holds `count_id * flagged_count` (strictly more than `count_id`) rows with
that identifier. -/
theorem C10_row_multiplicity (df : List CoreRow) (f : String → String) :
    (((core_rows df).map (fun r => r.video_id)).Nodup →
      (merge_transcripts df (transcript_pairs df f)).map Prod.fst = df) ∧
    (∀ v, 2 ≤ flagged_count v df →
      out_count v (merge_transcripts df (transcript_pairs df f)) =
        count_id v df * flagged_count v df ∧
      count_id v df < out_count v (merge_transcripts df (transcript_pairs df f))) := by
  constructor
  · intro h
    exact merge_map_fst df _ (fun v => by
      rw [tr_count_transcript_pairs]
      exact count_id_le_one_of_nodup h v)
  · intro v h2
    have hoc := out_count_merge df (transcript_pairs df f) v
    rw [tr_count_transcript_pairs] at hoc
    have hmax : max 1 (flagged_count v df) = flagged_count v df :=
      Nat.max_eq_right (Nat.le_trans (by omega) h2)
    rw [hmax] at hoc
    refine ⟨hoc, ?_⟩
    have hle : flagged_count v df ≤ count_id v df := flagged_count_le_count_id v df
    have hpos : 0 < count_id v df := by omega
    have h2c : count_id v df * 2 ≤ count_id v df * flagged_count v df :=
      mul_le_mul_left' h2 _
    rw [hoc]
    exact Nat.lt_of_lt_of_le (by omega) h2c

/-- Witness for C10 on `dupDf`: identifier `"a"` is flagged twice, and the
output holds 4 = 2 * 2 rows with it. -/
theorem C10_row_multiplicity_witness :
    out_count "a" (merge_transcripts dupDf (transcript_pairs dupDf (fun _ => "T"))) =
      count_id "a" dupDf * flagged_count "a" dupDf ∧
    count_id "a" dupDf < out_count "a" (merge_transcripts dupDf (transcript_pairs dupDf (fun _ => "T"))) :=
  (C10_row_multiplicity dupDf (fun _ => "T")).2 "a" (by decide)

/-! ## Candidate Sampler (`youtube_aigc_sampler.main`)

Search rows as built in `search_videos_for_query`: `snippet.get` without a
default can yield `None` (`Option`), `description` defaults to `""`, and
`query` is the originating query string.  Detail rows as built in
`fetch_video_details`: every field carries a default, so none is null. -/

structure CandidateRow where
  video_id : String
  channel_id : Option String
  channel_title : Option String
  publish_date : Option String
  title : Option String
  description : String
  query : String
deriving DecidableEq, Repr

structure DetailRow where
  video_id : String
  view_count : Nat
  like_count : Nat
  comment_count : Nat
  full_title : String
  full_description : String
  publish_date_full : String
deriving DecidableEq, Repr

/-- `drop_duplicates(subset="video_id", keep="first")` on the row list:
keep the first row per identifier, preserving order. -/
def drop_dup_aux : List CandidateRow → List String → List CandidateRow
  | [], _ => []
  | r :: rs, seen =>
    if r.video_id ∈ seen then drop_dup_aux rs seen
    else r :: drop_dup_aux rs (r.video_id :: seen)

def drop_duplicates_video_id (rows : List CandidateRow) : List CandidateRow :=
  drop_dup_aux rows []

inductive PdError where
  | keyError (col : String)
deriving DecidableEq, Repr

/-- `pd.DataFrame(all_rows)` infers its columns from the row dicts: an
empty row list yields a frame with no columns at all. -/
def frame_cols (rows : List CandidateRow) : List String :=
  if rows.isEmpty then []
  else ["video_id", "channel_id", "channel_title", "publish_date", "title",
    "description", "query"]

/-- `df.drop_duplicates(subset="video_id")`: pandas validates `subset`
against the frame's columns and raises `KeyError` when `video_id` is
missing (the case for a frame built from zero rows); otherwise it keeps the
first row per identifier. -/
def drop_duplicates_subset (rows : List CandidateRow) :
    Except PdError (List CandidateRow) :=
  if "video_id" ∈ frame_cols rows then Except.ok (drop_duplicates_video_id rows)
  else Except.error (PdError.keyError "video_id")

/-- `df.merge(details_df, on="video_id", how="left")`. -/
def merge_details (df : List CandidateRow) (details : List DetailRow) :
    List (CandidateRow × Option DetailRow) :=
  df.flatMap (fun r =>
    match details.filter (fun d => d.video_id == r.video_id) with
    | [] => [(r, none)]
    | ms => ms.map (fun d => (r, some d)))

/-- A merged row after the three `fillna` coalesces and the
`drop(columns=["full_description", "full_title", "publish_date_full"])`:
the detail-specific columns are gone, and the statistics columns are `NaN`
(`none`) exactly for unmatched rows. -/
structure EnrichedRow where
  video_id : String
  channel_id : Option String
  channel_title : Option String
  publish_date : Option String
  title : Option String
  description : String
  query : String
  view_count : Option Nat
  like_count : Option Nat
  comment_count : Option Nat
deriving DecidableEq, Repr

/-- `df["description"] = df["full_description"].fillna(df["description"])`
and the analogous lines for `title` and `publish_date`, applied to one
merged row, followed by dropping the detail-specific columns. -/
def coalesce_row (r : CandidateRow) (od : Option DetailRow) : EnrichedRow :=
  { video_id := r.video_id
    channel_id := r.channel_id
    channel_title := r.channel_title
    publish_date :=
      match od with
      | some d => some d.publish_date_full
      | none => r.publish_date
    title :=
      match od with
      | some d => some d.full_title
      | none => r.title
    description :=
      match od with
      | some d => d.full_description
      | none => r.description
    query := r.query
    view_count := od.map (fun d => d.view_count)
    like_count := od.map (fun d => d.like_count)
    comment_count := od.map (fun d => d.comment_count) }

def enrich (df : List CandidateRow) (details : List DetailRow) : List EnrichedRow :=
  (merge_details df details).map (fun p => coalesce_row p.1 p.2)

/-- One cell of `df["publish_date"].str.slice(0, 7)`. -/
def month_bucket (s : String) : String :=
  s.take 7

/-- The whole `month_bucket` column: `.str.slice` keeps `NaN` cells `NaN`. -/
def add_month_bucket (rows : List EnrichedRow) : List (EnrichedRow × Option String) :=
  rows.map (fun r => (r, r.publish_date.map month_bucket))

/-- The Candidate Sampler's `main` after the search loop: the concatenated
search rows are deduplicated, enriched with details (`details_of` abstracts
the details API over the deduplicated id list), coalesced and bucketed.
`Except.error` models an uncaught pandas exception; `Except.ok none` models
the early `return` that writes no file. -/
def sampler_main (searchResults : List (List CandidateRow))
    (details_of : List String → List DetailRow) :
    Except PdError (Option (List (EnrichedRow × Option String))) :=
  let all_rows := searchResults.flatMap id
  match drop_duplicates_subset all_rows with
  | Except.error e => Except.error e
  | Except.ok df =>
    if df.isEmpty then Except.ok none
    else
      Except.ok (some (add_month_bucket
        (enrich df (details_of (df.map (fun r => r.video_id))))))

/-- Number of candidate rows carrying identifier `v`. -/
def ccount (v : String) (rows : List CandidateRow) : Nat :=
  (rows.filter (fun r => r.video_id == v)).length

theorem dd_sublist (rows : List CandidateRow) :
    ∀ seen, (drop_dup_aux rows seen).Sublist rows := by
  induction rows with
  | nil => intro seen; exact List.Sublist.refl []
  | cons r rs ih =>
    intro seen
    unfold drop_dup_aux
    by_cases hm : r.video_id ∈ seen
    · rw [if_pos hm]
      exact (ih seen).cons r
    · rw [if_neg hm]
      exact (ih (r.video_id :: seen)).cons₂ r

theorem dd_not_seen (rows : List CandidateRow) :
    ∀ seen r, r ∈ drop_dup_aux rows seen → r.video_id ∉ seen := by
  induction rows with
  | nil => intro seen r hr; exact absurd hr (List.not_mem_nil r)
  | cons x rs ih =>
    intro seen r hr
    unfold drop_dup_aux at hr
    by_cases hm : x.video_id ∈ seen
    · rw [if_pos hm] at hr
      exact ih seen r hr
    · rw [if_neg hm] at hr
      rcases List.mem_cons.mp hr with hrx | hr'
      · rw [hrx]; exact hm
      · intro hs
        exact ih (x.video_id :: seen) r hr' (List.mem_cons_of_mem _ hs)

theorem dd_count_seen (rows : List CandidateRow) :
    ∀ seen v, v ∈ seen → ccount v (drop_dup_aux rows seen) = 0 := by
  induction rows with
  | nil => intro seen v _; rfl
  | cons x rs ih =>
    intro seen v hv
    unfold drop_dup_aux
    by_cases hm : x.video_id ∈ seen
    · rw [if_pos hm]
      exact ih seen v hv
    · rw [if_neg hm]
      have hne : (x.video_id == v) = false := by
        simp only [beq_eq_false_iff_ne, ne_eq]
        intro hx
        exact hm (hx ▸ hv)
      unfold ccount
      rw [List.filter_cons, if_neg (by simp [hne])]
      exact ih (x.video_id :: seen) v (List.mem_cons_of_mem _ hv)

theorem dd_count_new (rows : List CandidateRow) :
    ∀ seen v, v ∉ seen → v ∈ rows.map (fun r => r.video_id) →
      ccount v (drop_dup_aux rows seen) = 1 := by
  induction rows with
  | nil => intro seen v _ hv; exact absurd hv (by simp)
  | cons x rs ih =>
    intro seen v hvs hv
    unfold drop_dup_aux
    by_cases hm : x.video_id ∈ seen
    · rw [if_pos hm]
      have hxv : x.video_id ≠ v := fun hx => hvs (hx ▸ hm)
      have hv2 : v = x.video_id ∨ ∃ a ∈ rs, a.video_id = v := by simpa using hv
      have hv' : v ∈ rs.map (fun r => r.video_id) := by
        rcases hv2 with h | ⟨a, ha, hav⟩
        · exact absurd h.symm hxv
        · exact List.mem_map.mpr ⟨a, ha, hav⟩
      exact ih seen v hvs hv'
    · rw [if_neg hm]
      by_cases hxv : (x.video_id == v) = true
      · have hveq : x.video_id = v := beq_iff_eq.mp hxv
        unfold ccount
        rw [List.filter_cons, if_pos (by simp [hxv])]
        have h0 : ccount v (drop_dup_aux rs (x.video_id :: seen)) = 0 :=
          dd_count_seen rs (x.video_id :: seen) v (hveq ▸ List.mem_cons_self _ _)
        unfold ccount at h0
        simp [h0]
      · have hne : (x.video_id == v) = false := by simpa using hxv
        have hxv' : x.video_id ≠ v := by simpa using hxv
        unfold ccount
        rw [List.filter_cons, if_neg (by simp [hne])]
        have hv2 : v = x.video_id ∨ ∃ a ∈ rs, a.video_id = v := by simpa using hv
        have hv' : v ∈ rs.map (fun r => r.video_id) := by
          rcases hv2 with h | ⟨a, ha, hav⟩
          · exact absurd h.symm hxv'
          · exact List.mem_map.mpr ⟨a, ha, hav⟩
        have hvs' : v ∉ x.video_id :: seen :=
          fun h => (List.mem_cons.mp h).elim (fun h1 => hxv' h1.symm) hvs
        exact ih (x.video_id :: seen) v hvs' hv'

theorem dd_first (rows : List CandidateRow) :
    ∀ seen r, r ∈ drop_dup_aux rows seen →
      rows.find? (fun x => x.video_id == r.video_id) = some r := by
  induction rows with
  | nil => intro seen r hr; exact absurd hr (List.not_mem_nil r)
  | cons x rs ih =>
    intro seen r hr
    unfold drop_dup_aux at hr
    by_cases hm : x.video_id ∈ seen
    · rw [if_pos hm] at hr
      have hrs : r.video_id ∉ seen := dd_not_seen rs seen r hr
      have hne : (x.video_id == r.video_id) = false := by
        simp only [beq_eq_false_iff_ne, ne_eq]
        intro hx
        exact hrs (hx ▸ hm)
      rw [List.find?_cons_of_neg _ (by simp [hne])]
      exact ih seen r hr
    · rw [if_neg hm] at hr
      rcases List.mem_cons.mp hr with hrx | hr'
      · subst hrx
        rw [List.find?_cons_of_pos _ (by simp)]
      · have hrs : r.video_id ∉ x.video_id :: seen :=
          dd_not_seen rs (x.video_id :: seen) r hr'
        have hne : (x.video_id == r.video_id) = false := by
          simp only [beq_eq_false_iff_ne, ne_eq]
          intro hx
          exact hrs (hx ▸ List.mem_cons_self _ _)
        rw [List.find?_cons_of_neg _ (by simp [hne])]
        exact ih (x.video_id :: seen) r hr'

/-- C6: deduplication keeps exactly one row per distinct identifier, that
row is the first occurrence in input order (hence its `query` field is the
first query that returned the video), and survivors keep their relative
order (the output is a sublist of the input). -/
theorem C6_dedupe (rows : List CandidateRow) :
    (∀ v, v ∈ rows.map (fun r => r.video_id) →
      ccount v (drop_duplicates_video_id rows) = 1) ∧
    (∀ r, r ∈ drop_duplicates_video_id rows →
      rows.find? (fun x => x.video_id == r.video_id) = some r) ∧
    (∀ r, r ∈ drop_duplicates_video_id rows →
      (rows.find? (fun x => x.video_id == r.video_id)).map (fun x => x.query) =
        some r.query) ∧
    (drop_duplicates_video_id rows).Sublist rows := by
  refine ⟨?_, ?_, ?_, dd_sublist rows []⟩
  · intro v hv
    exact dd_count_new rows [] v (List.not_mem_nil v) hv
  · intro r hr
    exact dd_first rows [] r hr
  · intro r hr
    rw [dd_first rows [] r hr]
    rfl

/-- First query's copy of video `"abc123"`. -/
def c6r1 : CandidateRow := ⟨"abc123", none, none, none, none, "", "q1"⟩

/-- Second query's copy of the same video. -/
def c6r2 : CandidateRow := ⟨"abc123", none, none, none, none, "", "q2"⟩

/-- A distinct video from the second query. -/
def c6r3 : CandidateRow := ⟨"zzz", none, none, none, none, "", "q2"⟩

def c6rows : List CandidateRow := [c6r1, c6r2, c6r3]

/-- Witness for C6: video `"abc123"` is returned by both queries; exactly
one copy survives, and it is the first query's copy. -/
theorem C6_dedupe_witness :
    ccount "abc123" (drop_duplicates_video_id c6rows) = 1 ∧
    c6rows.find? (fun x => x.video_id == c6r1.video_id) = some c6r1 ∧
    (c6rows.find? (fun x => x.video_id == c6r1.video_id)).map (fun x => x.query) =
      some "q1" := by
  refine ⟨(C6_dedupe c6rows).1 "abc123" (by decide),
    (C6_dedupe c6rows).2.1 c6r1 (by decide), ?_⟩
  exact (C6_dedupe c6rows).2.2.1 c6r1 (by decide)

/-- C7: in the left join of candidates to details, a row's companion is
`none` exactly when no detail row shares its identifier; the coalesced
description, title and publish timestamp equal the detail row's (always
non-null) values when a detail row matched, and the candidate row's values
otherwise.  The detail-specific columns are gone from `EnrichedRow`. -/
theorem C7_coalesce (df : List CandidateRow) (details : List DetailRow)
    (r : CandidateRow) (od : Option DetailRow)
    (hm : (r, od) ∈ merge_details df details) :
    ((od = none ∧ ∀ d ∈ details, d.video_id ≠ r.video_id) ∨
      (∃ d, od = some d ∧ d ∈ details ∧ d.video_id = r.video_id)) ∧
    (∀ d, od = some d →
      (coalesce_row r od).description = d.full_description ∧
      (coalesce_row r od).title = some d.full_title ∧
      (coalesce_row r od).publish_date = some d.publish_date_full) ∧
    (od = none →
      (coalesce_row r od).description = r.description ∧
      (coalesce_row r od).title = r.title ∧
      (coalesce_row r od).publish_date = r.publish_date) := by
  refine ⟨?_, ?_, ?_⟩
  · rw [merge_details, List.mem_flatMap] at hm
    obtain ⟨a, _, hb⟩ := hm
    cases hfil : details.filter (fun d => d.video_id == a.video_id) with
    | nil =>
      rw [hfil] at hb
      simp only [List.mem_singleton, Prod.mk.injEq] at hb
      obtain ⟨hra, ho⟩ := hb
      subst hra
      left
      refine ⟨ho, ?_⟩
      intro d hd hdv
      have hdf : d ∈ details.filter (fun x => x.video_id == r.video_id) :=
        List.mem_filter.mpr ⟨hd, by simp [hdv]⟩
      rw [hfil] at hdf
      exact absurd hdf (List.not_mem_nil d)
    | cons x xs =>
      rw [hfil] at hb
      have hb' : (r, od) ∈ (x :: xs).map (fun d => (a, some d)) := hb
      obtain ⟨d, hd, hde⟩ := List.mem_map.mp hb'
      cases hde
      right
      have hdf : d ∈ details.filter (fun y => y.video_id == r.video_id) := by
        rw [hfil]; exact hd
      obtain ⟨hdd, hdv⟩ := List.mem_filter.mp hdf
      exact ⟨d, rfl, hdd, by simpa using hdv⟩
  · intro d hd
    subst hd
    exact ⟨rfl, rfl, rfl⟩
  · intro ho
    subst ho
    exact ⟨rfl, rfl, rfl⟩

def candA : CandidateRow := ⟨"a", none, none, some "2025-08-01", some "t", "short", "q"⟩

def candB : CandidateRow := ⟨"b", none, none, none, none, "", "q"⟩

def detA : DetailRow := ⟨"a", 10, 2, 1, "T full", "D full", "2025-08-01T00:00:00Z"⟩

/-- Witness for C7: `candA` matches `detA` and takes its fields; `candB`
matches nothing and keeps its own. -/
theorem C7_coalesce_witness :
    ((coalesce_row candA (some detA)).description = detA.full_description ∧
      (coalesce_row candA (some detA)).title = some detA.full_title ∧
      (coalesce_row candA (some detA)).publish_date = some detA.publish_date_full) ∧
    ((coalesce_row candB none).description = candB.description ∧
      (coalesce_row candB none).title = candB.title ∧
      (coalesce_row candB none).publish_date = candB.publish_date) :=
  ⟨(C7_coalesce [candA, candB] [detA] candA (some detA) (by decide)).2.1 detA rfl,
    (C7_coalesce [candA, candB] [detA] candB none (by decide)).2.2 rfl⟩

/-- C8: the month bucket of a publish-timestamp string is its first 7
characters when the string has at least 7, and the whole string otherwise;
no validation of the timestamp shape happens anywhere. -/
theorem C8_month_bucket_slice (s : String) :
    (7 ≤ s.length → month_bucket s = String.mk (s.data.take 7) ∧
      (month_bucket s).length = 7) ∧
    (s.length < 7 → month_bucket s = s) := by
  obtain ⟨data⟩ := s
  constructor
  · intro h7
    refine ⟨by rw [month_bucket, String.take_eq], ?_⟩
    rw [month_bucket, String.take_eq]
    show (data.take 7).length = 7
    rw [List.length_take]
    exact Nat.min_eq_left h7
  · intro hlt
    rw [month_bucket, String.take_eq]
    show String.mk (data.take 7) = String.mk data
    congr 1
    exact List.take_of_length_le (Nat.le_of_lt hlt)

/-- Witness for C8 on a full timestamp and on a short malformed string. -/
theorem C8_month_bucket_slice_witness :
    month_bucket "2025-08-01T00:00:00Z" = "2025-08" ∧
    month_bucket "25-08" = "25-08" := by
  constructor
  · rw [((C8_month_bucket_slice "2025-08-01T00:00:00Z").1 (by decide)).1]
    rfl
  · exact (C8_month_bucket_slice "25-08").2 (by decide)

/-- C4: the Transcript Fetcher half of the claim holds — with no flagged
row, `main` prints and returns without writing a file.  The Candidate
Sampler half does not: on empty search results, `pd.DataFrame([])` has no
columns, so `drop_duplicates(subset="video_id")` raises `KeyError` before
the `df.empty` early-exit check is ever reached. -/
theorem C4_empty_input (df : List CoreRow) (f : String → String)
    (hc : core_rows df = []) :
    sampler_main [[], [], []] (fun _ => []) =
      Except.error (PdError.keyError "video_id") ∧
    fetcher_main df f = none := by
  refine ⟨rfl, ?_⟩
  unfold fetcher_main
  rw [hc]
  rfl

/-- Witness for C4 on a one-row table whose flag is `"0"`. -/
theorem C4_empty_input_witness :
    fetcher_main [⟨"a", "0", []⟩] (fun _ => "") = none :=
  (C4_empty_input [⟨"a", "0", []⟩] (fun _ => "") rfl).2

end ThesisScripts
